import Mathlib

/-!
Shallow embedding of the documentation generator `scripts/gen_docs.py`
(class `DocsGenerator`): filesystem paths as segment lists, the Python AST
restricted to the shape `ast.walk` needs, the pydantic construction of the
configuration, file discovery (`source_files` with its `cached_property`
caching), output-path preparation (`_prepare_docs_path`), stub-content
synthesis (`_gen_python_docs` / `_gen_notebook_docs`), the per-file runner
(`_process_file`), the batch runner (`_process_batch`) and the pipeline
(`gen_docs`).  External effects (reading and parsing a source file,
rendering a notebook) are oracles carried by a `World`; filesystem
mutations are recorded as an event trace.
-/

namespace GenDocs

/-- A filesystem path, as its sequence of segments (Python `Path.parts`). -/
structure PyPath where
  parts : List String
deriving DecidableEq

/-- Python `str.split` on a single-character separator: every occurrence
splits, empty pieces are kept, the empty string yields one empty piece. -/
def splitCharAux (sep : Char) : List Char → List Char → List String
  | [], acc => [String.mk acc.reverse]
  | c :: rest, acc =>
    if c = sep then String.mk acc.reverse :: splitCharAux sep rest []
    else splitCharAux sep rest (c :: acc)

/-- `str.split(sep)` for a one-character `sep`. -/
def pySplitChar (sep : Char) (s : String) : List String :=
  splitCharAux sep s.toList []

/-- The ASCII whitespace `str.strip()` removes. -/
def pyIsSpace (c : Char) : Bool :=
  c = ' ' || c = '\t' || c = '\n' || c = '\r' || c = '\x0b' || c = '\x0c'

/-- Python `str.strip()`: drop leading and trailing whitespace. -/
def pyStrip (s : String) : String :=
  String.mk (((s.toList.dropWhile pyIsSpace).reverse.dropWhile pyIsSpace).reverse)

/-- Python `str.endswith`. -/
def pyEndsWith (s suffix : String) : Bool :=
  suffix.toList.isSuffixOf s.toList

/-- Python `str.rfind` for the dot character, over a list of characters:
index of the last occurrence. -/
def rfindDot : List Char → Option Nat
  | [] => none
  | c :: rest =>
    match rfindDot rest with
    | some i => some (i + 1)
    | none => if c = '.' then some 0 else none

/-- Python `PurePath` stem/suffix split of a filename: the suffix starts at
the last dot, provided that dot is neither the first nor the last
character; otherwise the suffix is empty. -/
def pyStemSuffix (s : String) : String × String :=
  let cs := s.toList
  match rfindDot cs with
  | some i =>
    if 0 < i ∧ i + 1 < cs.length then (String.mk (cs.take i), String.mk (cs.drop i))
    else (s, "")
  | none => (s, "")

/-- Python `PurePath.with_suffix` applied to a bare filename. -/
def pyWithSuffixName (s newSuffix : String) : String :=
  (pyStemSuffix s).1 ++ newSuffix

/-- `Path.name`: the final path segment. -/
def PyPath.name (p : PyPath) : String := p.parts.getLast?.getD ""

/-- `Path.parent` as segments (`[]` is the path `.`). -/
def PyPath.parentParts (p : PyPath) : List String := p.parts.dropLast

/-- `Path.suffix`. -/
def PyPath.suffix (p : PyPath) : String := (pyStemSuffix p.name).2

/-- `Path.as_posix`. -/
def PyPath.asPosix (p : PyPath) : String :=
  if p.parts = [] then "." else String.intercalate "/" p.parts

/-- `str.replace` of the separator slash by a dot: the pattern is a single
character, so the replacement is character-wise. -/
def replaceSlashDot (s : String) : String :=
  String.mk (s.toList.map fun c => if c = '/' then '.' else c)

/-- `Path.with_suffix`. -/
def PyPath.withSuffix (p : PyPath) (newSuffix : String) : PyPath :=
  ⟨p.parts.dropLast ++ [pyWithSuffixName p.name newSuffix]⟩

/-- `file.with_suffix("").as_posix().replace("/", ".")` — the dotted module
path of `_gen_python_docs`. -/
def dottedPath (file : PyPath) : String :=
  replaceSlashDot (file.withSuffix "").asPosix

/-- `file.with_suffix(".md").name` — the stub filename of
`_prepare_docs_path`. -/
def mdName (file : PyPath) : String := pyWithSuffixName file.name ".md"

/-- The Python AST as far as `ast.walk` + `isinstance(node, ast.ClassDef)`
observes it: class definitions, function definitions and all other
statements, each with the list of child nodes. -/
inductive PyNode where
  | classDef (name : String) (body : List PyNode) : PyNode
  | funcDef (name : String) (body : List PyNode) : PyNode
  | other (body : List PyNode) : PyNode

/-- `ast.iter_child_nodes`. -/
def pyChildren : PyNode → List PyNode
  | .classDef _ b => b
  | .funcDef _ b => b
  | .other b => b

mutual

/-- Number of AST nodes in a node (itself included). -/
def pyCount : PyNode → Nat
  | .classDef _ b => 1 + pyCountList b
  | .funcDef _ b => 1 + pyCountList b
  | .other b => 1 + pyCountList b

/-- Number of AST nodes in a forest. -/
def pyCountList : List PyNode → Nat
  | [] => 0
  | n :: rest => pyCount n + pyCountList rest

end

theorem pyCountList_append (a b : List PyNode) :
    pyCountList (a ++ b) = pyCountList a + pyCountList b := by
  induction a with
  | nil => simp [pyCountList]
  | cons n t ih => simp [pyCountList, ih]; omega

theorem pyCount_children (n : PyNode) :
    pyCount n = pyCountList (pyChildren n) + 1 := by
  cases n <;> simp [pyCount, pyChildren] <;> omega

/-- Breadth-first traversal with explicit fuel; each step pops one node and
enqueues its children, so the total node count of the initial queue is
exactly enough fuel. -/
def walkFuel : Nat → List PyNode → List PyNode
  | 0, _ => []
  | _ + 1, [] => []
  | fuel + 1, n :: rest => n :: walkFuel fuel (rest ++ pyChildren n)

/-- `ast.walk`: breadth-first traversal of all nodes.  `ast.walk(tree)`
starts from the `Module` node, which is itself no `ClassDef`; starting the
queue at the module's top-level statements is the same traversal. -/
def ast_walk (q : List PyNode) : List PyNode := walkFuel (pyCountList q) q

theorem walkFuel_congr :
    ∀ (f₁ f₂ : Nat) (q : List PyNode), pyCountList q ≤ f₁ → pyCountList q ≤ f₂ →
      walkFuel f₁ q = walkFuel f₂ q := by
  intro f₁
  induction f₁ with
  | zero =>
    intro f₂ q h₁ h₂
    cases q with
    | nil => cases f₂ <;> rfl
    | cons n rest =>
      exfalso
      have hc := pyCount_children n
      simp [pyCountList] at h₁
      omega
  | succ m ih =>
    intro f₂ q h₁ h₂
    cases q with
    | nil => cases f₂ <;> rfl
    | cons n rest =>
      have hc := pyCount_children n
      have hq : pyCountList (n :: rest) = pyCountList rest + pyCountList (pyChildren n) + 1 := by
        simp [pyCountList]; omega
      cases f₂ with
      | zero => exfalso; omega
      | succ m₂ =>
        have hstep : pyCountList (rest ++ pyChildren n) =
            pyCountList rest + pyCountList (pyChildren n) := pyCountList_append _ _
        simp only [walkFuel]
        have := ih m₂ (rest ++ pyChildren n) (by omega) (by omega)
        rw [this]

theorem ast_walk_nil : ast_walk [] = [] := rfl

/-- The fuel encoding satisfies the defining equation of the breadth-first
walk. -/
theorem ast_walk_cons (n : PyNode) (rest : List PyNode) :
    ast_walk (n :: rest) = n :: ast_walk (rest ++ pyChildren n) := by
  unfold ast_walk
  have hc := pyCount_children n
  have hq : pyCountList (n :: rest) = (pyCountList rest + pyCountList (pyChildren n)) + 1 := by
    simp [pyCountList]; omega
  rw [hq]
  simp only [walkFuel]
  have hstep : pyCountList (rest ++ pyChildren n) =
      pyCountList rest + pyCountList (pyChildren n) := pyCountList_append _ _
  rw [walkFuel_congr (pyCountList rest + pyCountList (pyChildren n))
    (pyCountList (rest ++ pyChildren n)) (rest ++ pyChildren n) (by omega) (by omega)]

/-- The names of every `ClassDef` node `ast.walk` reaches, in walk order. -/
def classNamesOf (stmts : List PyNode) : List String :=
  (ast_walk stmts).filterMap fun n =>
    match n with
    | .classDef nm _ => some nm
    | _ => none

/-- The `mode` field: `Literal["file", "class"]` (`cls` stands for the
Python literal `"class"`, a reserved word here). -/
inductive Mode where
  | file : Mode
  | cls : Mode
deriving DecidableEq

/-- The fields of the pydantic model `DocsGenerator`. -/
structure DocsGenerator where
  source_path : PyPath
  output_path : PyPath
  exclude : String
  mode : Mode
  execute : Bool
  concurrency : Int
deriving DecidableEq

/-- Pydantic validation of the `mode` field (`Literal["file", "class"]`). -/
def parseMode (s : String) : Except String Mode :=
  if s = "file" then .ok Mode.file
  else if s = "class" then .ok Mode.cls
  else .error "Input should be file or class"

/-- Construction of a `DocsGenerator`: `source`/`output` are accepted as
paths, `exclude` as a string, `execute` as a bool; `mode` must be one of
the two literals; `concurrency` is declared `int` with no further bound in
its `Field(...)`. -/
def mkDocsGenerator (source output : PyPath) (exclude : String) (mode : String)
    (execute : Bool) (concurrency : Int) : Except String DocsGenerator :=
  match parseMode mode with
  | .error e => .error e
  | .ok m => .ok ⟨source, output, exclude, m, execute, concurrency⟩

/-- What `source_path.is_dir()` / `is_file()` report. -/
inductive SourceKind where
  | isDir : SourceKind
  | isFile : SourceKind
  | missing : SourceKind
deriving DecidableEq

/-- Filesystem mutations the script performs, as trace events. -/
inductive FsEvent where
  | rmtreeOutput : FsEvent
  | mkdirParents (dir : List String) : FsEvent
  | unlink (path : List String) : FsEvent
  | writeFile (path : List String) (content : String) : FsEvent
deriving DecidableEq

/-- The environment of one call: what the filesystem under `source_path`
holds (`relFiles` are the `parts` of every file relative to the source
directory), whether the output directory currently exists, and the two
external effects — reading+`ast.parse`-ing a python file, and the
nbformat/nbconvert pipeline rendering a notebook (second argument: the
`execute` flag) — as fallible oracles. -/
structure World where
  sourceKind : SourceKind
  outputExists : Bool
  relFiles : List (List String)
  readPy : PyPath → Except String (List PyNode)
  renderNb : PyPath → Bool → Except String String

/-- `_get_all_files`: for every comma-separated extension in `suffix`,
`rglob` the source tree for files matching `*.<ext>` and concatenate the
hits (a name matches `*.<ext>` exactly when it ends in `.<ext>`). -/
def get_all_files (g : DocsGenerator) (w : World) (suffix : String) : List PyPath :=
  let targets := (pySplitChar ',' suffix).map (fun s => pyStrip s)
  targets.foldl
    (fun acc target =>
      acc ++ (w.relFiles.filter (fun rel =>
        pyEndsWith (rel.getLast?.getD "") ("." ++ target))).map
        (fun rel => PyPath.mk (g.source_path.parts ++ rel)))
    []

/-- The two exclusions `source_files` always adds. -/
def builtinExcludes : List String := [".venv", "__init__.py"]

/-- The body of the `source_files` property: in the directory case, remove
the output directory if it exists, then collect `*.py` and `*.ipynb` files
and drop every file one of whose path segments is excluded; in the file
case, the single-element list; otherwise `ValueError("Invalid source
path")`. -/
def source_files_compute (g : DocsGenerator) (w : World) :
    Except String (List PyPath × List FsEvent) :=
  match w.sourceKind with
  | .isDir =>
    let evs := if w.outputExists then [FsEvent.rmtreeOutput] else []
    let exclude_list := (pySplitChar ',' g.exclude).map (fun s => pyStrip s)
    let need_to_exclude := (exclude_list ++ builtinExcludes).dedup
    let all_files := get_all_files g w "py,ipynb"
    let kept := all_files.filter
      (fun f => !(need_to_exclude.any (fun e => f.parts.contains e)))
    .ok (kept, evs)
  | .isFile => .ok ([g.source_path], [])
  | .missing => .error "Invalid source path"

/-- The `DocsGenerator` object together with the `cached_property` slot of
`source_files`. -/
structure GenState where
  gen : DocsGenerator
  sourceFilesCache : Option (List PyPath)
deriving DecidableEq

/-- Access to `self.source_files`: a cached value is returned as is (no
filesystem access, no events); otherwise the property body runs and, on
success, its value is stored (on an exception `cached_property` stores
nothing). -/
def source_files_cached (st : GenState) (w : World) :
    Except String (List PyPath × GenState × List FsEvent) :=
  match st.sourceFilesCache with
  | some l => .ok (l, st, [])
  | none =>
    match source_files_compute st.gen w with
    | .error e => .error e
    | .ok (files, evs) => .ok (files, ⟨st.gen, some files⟩, evs)

/-- `Path.relative_to`: drop the base prefix, or `ValueError`. -/
def relative_to (p base : List String) : Except String (List String) :=
  if base <+: p then .ok (p.drop base.length)
  else .error "is not in the subpath"

/-- `_prepare_docs_path`: the stub keeps the file's stem with a `.md`
suffix; when the file's parent is not `.`, the parent is remapped relative
to `source_path` under `output_path` (a `ValueError` from `relative_to`
propagates); the stub's parent directory is created with
`parents=True, exist_ok=True` and a pre-existing stub is unlinked. -/
def prepare_docs_path (g : DocsGenerator) (file : PyPath) :
    Except String (PyPath × List FsEvent) :=
  let filename := mdName file
  if file.parentParts ≠ [] then
    match relative_to file.parentParts g.source_path.parts with
    | .error e => .error e
    | .ok rel =>
      let docs : PyPath := ⟨g.output_path.parts ++ rel ++ [filename]⟩
      .ok (docs, [FsEvent.mkdirParents docs.parts.dropLast, FsEvent.unlink docs.parts])
  else
    let docs : PyPath := ⟨g.output_path.parts ++ [filename]⟩
    .ok (docs, [FsEvent.mkdirParents docs.parts.dropLast, FsEvent.unlink docs.parts])

/-- The single whole-file reference line. -/
def fileRefLine (file : PyPath) : String := "::: " ++ dottedPath file ++ "\n"

/-- The f-string of the class-mode loop:
`f"::: {file.with_suffix('').as_posix().replace('/', '.')}.{node.name}\n"`. -/
def classRefLine (file : PyPath) (nm : String) : String :=
  "::: " ++ dottedPath file ++ "." ++ nm ++ "\n"

/-- The `mode == "class"` loop: one reference line appended per `ClassDef`
node `ast.walk` yields. -/
def classRefContent (file : PyPath) (tree : List PyNode) : String :=
  (classNamesOf tree).foldl (fun acc nm => acc ++ classRefLine file nm) ""

/-- `note_content` of `_gen_python_docs` including the final
`if not note_content` fallback to the whole-file line. -/
def pyContent (mode : Mode) (file : PyPath) (tree : List PyNode) : String :=
  let note_content :=
    match mode with
    | Mode.file => fileRefLine file
    | Mode.cls => classRefContent file tree
  if note_content = "" then fileRefLine file else note_content

/-- Computing `note_content` for a python file; only class mode reads and
parses the file, so only class mode can fail here. -/
def python_note_content (g : DocsGenerator) (w : World) (file : PyPath) :
    Except String String :=
  match g.mode with
  | Mode.file => .ok (pyContent Mode.file file [])
  | Mode.cls =>
    match w.readPy file with
    | .error e => .error e
    | .ok tree => .ok (pyContent Mode.cls file tree)

/-- `_gen_python_docs`: prepare the stub path (its mkdir/unlink effects
happen even if the later read fails), compute the content, write it, and
return the stub path as a string. -/
def gen_python_docs (g : DocsGenerator) (w : World) (file : PyPath) :
    Except String String × List FsEvent :=
  match prepare_docs_path g file with
  | .error e => (.error e, [])
  | .ok (docs, evs) =>
    match python_note_content g w file with
    | .error e => (.error e, evs)
    | .ok content => (.ok docs.asPosix, evs ++ [FsEvent.writeFile docs.parts content])

/-- `_gen_notebook_docs`: prepare the stub path, render the notebook (the
external exporter and optional executor, an oracle here), write the
rendered markdown. -/
def gen_notebook_docs (g : DocsGenerator) (w : World) (file : PyPath) :
    Except String String × List FsEvent :=
  match prepare_docs_path g file with
  | .error e => (.error e, [])
  | .ok (docs, evs) =>
    match w.renderNb file g.execute with
    | .error e => (.error e, evs)
    | .ok markdown => (.ok docs.asPosix, evs ++ [FsEvent.writeFile docs.parts markdown])

/-- The dispatch inside the `try` of `_process_file`: notebooks, python
files, or the unsupported-type log with an empty result. -/
def process_file_attempt (g : DocsGenerator) (w : World) (file : PyPath) :
    Except String String × List FsEvent :=
  if file.suffix = ".ipynb" then gen_notebook_docs g w file
  else if file.suffix = ".py" then gen_python_docs g w file
  else (.ok "", [])

/-- `_process_file`: any exception from the attempt is caught, logged and
turned into the empty result; the events already performed persist. -/
def process_file (g : DocsGenerator) (w : World) (file : PyPath) :
    String × List FsEvent :=
  match process_file_attempt g w file with
  | (.ok s, evs) => (s, evs)
  | (.error _, evs) => ("", evs)

/-- One serialization of the filesystem events of a batch. -/
def batchEvents (g : DocsGenerator) (w : World) (files : List PyPath) : List FsEvent :=
  files.foldr (fun f acc => (process_file g w f).2 ++ acc) []

/-- `_process_batch`: `asyncio.Semaphore(concurrency)` raises `ValueError`
for a negative argument; with zero permits and at least one file the
gather never completes (`none`); otherwise every file is processed and
`asyncio.gather` returns the per-file results in input order. -/
def process_batch (g : DocsGenerator) (w : World) (files : List PyPath) :
    Option (Except String (List String × List FsEvent)) :=
  if g.concurrency < 0 then
    some (.error "Semaphore initial value must be greater or equal than 0")
  else if g.concurrency = 0 ∧ files ≠ [] then none
  else some (.ok (files.map (fun f => (process_file g w f).1), batchEvents g w files))

/-- `gen_docs`: take `len(self.source_files)` (the first access runs the
property body), return early when the list is empty, otherwise run the
batch and count the truthy results.  The summary is
`(total_files, successful)`. -/
def gen_docs (st : GenState) (w : World) :
    Option (Except String ((Nat × Nat) × GenState × List FsEvent)) :=
  match source_files_cached st w with
  | .error e => some (.error e)
  | .ok (files, st', evs0) =>
    if files.isEmpty then some (.ok ((files.length, 0), st', evs0))
    else
      match process_batch st'.gen w files with
      | none => none
      | some (.error e) => some (.error e)
      | some (.ok (results, evs1)) =>
        some (.ok ((files.length, (results.filter (fun r => r != "")).length),
          st', evs0 ++ evs1))

/-! ### General helper lemmas -/

theorem join_cons (s : String) (l : List String) :
    String.join (s :: l) = s ++ String.join l := by
  apply String.ext
  simp [String.data_join, String.data_append]

theorem foldl_append_eq_join {α : Type} (f : α → String) :
    ∀ (l : List α) (init : String),
      l.foldl (fun acc x => acc ++ f x) init = init ++ String.join (l.map f) := by
  intro l
  induction l with
  | nil => intro init; exact (String.append_empty init).symm
  | cons a t ih =>
    intro init
    simp only [List.foldl_cons, List.map_cons]
    rw [ih (init ++ f a), join_cons, String.append_assoc]

theorem string_append_eq_empty {a b : String} (h : a ++ b = "") : a = "" ∧ b = "" := by
  have h2 := congrArg String.data h
  rw [String.data_append] at h2
  have h3 := List.append_eq_nil.mp h2
  exact ⟨String.ext h3.1, String.ext h3.2⟩

theorem fileRefLine_ne_empty (file : PyPath) : fileRefLine file ≠ "" := by
  intro h
  unfold fileRefLine at h
  have h1 := (string_append_eq_empty (string_append_eq_empty h).1).1
  exact absurd h1 (by decide)

theorem classRefLine_ne_empty (file : PyPath) (nm : String) :
    classRefLine file nm ≠ "" := by
  intro h
  unfold classRefLine at h
  have h1 := (string_append_eq_empty h).2
  exact absurd h1 (by decide)

theorem classRefContent_eq_join (file : PyPath) (tree : List PyNode) :
    classRefContent file tree =
      String.join ((classNamesOf tree).map (fun nm => classRefLine file nm)) := by
  unfold classRefContent
  rw [foldl_append_eq_join, String.empty_append]

theorem classRefContent_ne_empty (file : PyPath) (tree : List PyNode)
    (h : classNamesOf tree ≠ []) : classRefContent file tree ≠ "" := by
  rw [classRefContent_eq_join]
  cases hc : classNamesOf tree with
  | nil => exact absurd hc h
  | cons a l =>
    rw [List.map_cons, join_cons]
    intro he
    exact classRefLine_ne_empty file a (string_append_eq_empty he).1

theorem pyContent_file (file : PyPath) (tree : List PyNode) :
    pyContent Mode.file file tree = fileRefLine file := by
  unfold pyContent
  simp [fileRefLine_ne_empty file]

theorem pyContent_cls_of_names (file : PyPath) (tree : List PyNode)
    (h : classNamesOf tree ≠ []) :
    pyContent Mode.cls file tree = classRefContent file tree := by
  unfold pyContent
  simp [classRefContent_ne_empty file tree h]

theorem pyContent_cls_of_no_names (file : PyPath) (tree : List PyNode)
    (h : classNamesOf tree = []) :
    pyContent Mode.cls file tree = fileRefLine file := by
  unfold pyContent classRefContent
  rw [h]
  simp [List.foldl_nil]

/-- The relative directory `_prepare_docs_path` mirrors a file under:
`[]` for a file whose parent is `.`, otherwise the parent stripped of the
`source_path` prefix (`none` when `relative_to` would raise). -/
def relParentOpt (g : DocsGenerator) (f : PyPath) : Option (List String) :=
  if f.parentParts = [] then some []
  else if g.source_path.parts <+: f.parentParts then
    some (f.parentParts.drop g.source_path.parts.length)
  else none

theorem prepare_docs_path_shape (g : DocsGenerator) (f : PyPath) (docs : PyPath)
    (evs : List FsEvent) (h : prepare_docs_path g f = .ok (docs, evs)) :
    ∃ rel, relParentOpt g f = some rel ∧
      docs.parts = g.output_path.parts ++ (rel ++ [mdName f]) := by
  unfold prepare_docs_path at h
  unfold relParentOpt
  by_cases hp : f.parentParts = []
  · rw [if_neg (by simp [hp])] at h
    rw [if_pos hp]
    refine ⟨[], rfl, ?_⟩
    have hd : docs = ⟨g.output_path.parts ++ [mdName f]⟩ := by
      injection h with h1
      injection h1 with h2 h3
      exact h2.symm
    rw [hd]
    simp
  · rw [if_pos (by simp [hp])] at h
    unfold relative_to at h
    by_cases hpre : g.source_path.parts <+: f.parentParts
    · rw [if_pos hpre] at h
      simp only at h
      rw [if_neg hp, if_pos hpre]
      refine ⟨f.parentParts.drop g.source_path.parts.length, rfl, ?_⟩
      have hd : docs =
          ⟨g.output_path.parts ++ f.parentParts.drop g.source_path.parts.length ++ [mdName f]⟩ := by
        injection h with h1
        injection h1 with h2 h3
        exact h2.symm
      rw [hd]
      simp
    · rw [if_neg hpre] at h
      simp at h

theorem not_prefix_dropLast {l : List String} (h : l ≠ []) : ¬ (l <+: l.dropLast) := by
  intro hp
  have h1 := hp.length_le
  have h2 : l.dropLast.length = l.length - 1 := List.length_dropLast l
  have h3 : 0 < l.length := List.length_pos.mpr h
  omega

/-- `_prepare_docs_path` raises `ValueError` for any file whose parent is
not `.` but also not under `source_path` — in particular for a single-file
source inside a subdirectory, where the source path itself is the file. -/
theorem prepare_docs_path_error (g : DocsGenerator) (f : PyPath)
    (hp : f.parentParts ≠ []) (hpre : ¬ (g.source_path.parts <+: f.parentParts)) :
    prepare_docs_path g f = .error "is not in the subpath" := by
  unfold prepare_docs_path
  rw [if_pos (by simp [hp])]
  unfold relative_to
  rw [if_neg hpre]

theorem prepare_docs_path_events (g : DocsGenerator) (f : PyPath) (docs : PyPath)
    (evs : List FsEvent) (h : prepare_docs_path g f = .ok (docs, evs)) :
    evs = [FsEvent.mkdirParents docs.parts.dropLast, FsEvent.unlink docs.parts] := by
  unfold prepare_docs_path at h
  by_cases hp : f.parentParts = []
  · rw [if_neg (by simp [hp])] at h
    injection h with h1
    injection h1 with h2 h3
    rw [h2] at h3
    exact h3.symm
  · rw [if_pos (by simp [hp])] at h
    cases hr : relative_to f.parentParts g.source_path.parts with
    | error e => rw [hr] at h; exact absurd h (by simp)
    | ok rel =>
      rw [hr] at h
      injection h with h1
      injection h1 with h2 h3
      rw [h2] at h3
      exact h3.symm

/-- Shape of the filesystem events one file's processing can produce:
nothing, the prepare events alone, or prepare events plus the stub write. -/
theorem process_file_events_shape (g : DocsGenerator) (w : World) (f : PyPath) :
    (process_file g w f).2 = [] ∨
    (∃ docs : PyPath, (process_file g w f).2 =
      [FsEvent.mkdirParents docs.parts.dropLast, FsEvent.unlink docs.parts]) ∨
    (∃ (docs : PyPath) (c : String), (process_file g w f).2 =
      [FsEvent.mkdirParents docs.parts.dropLast, FsEvent.unlink docs.parts,
       FsEvent.writeFile docs.parts c]) := by
  have hpf : ∀ r evs, process_file_attempt g w f = (r, evs) →
      (process_file g w f).2 = evs := by
    intro r evs h
    unfold process_file
    rw [h]
    cases r <;> rfl
  have main : (process_file_attempt g w f).2 = [] ∨
      (∃ docs : PyPath, (process_file_attempt g w f).2 =
        [FsEvent.mkdirParents docs.parts.dropLast, FsEvent.unlink docs.parts]) ∨
      (∃ (docs : PyPath) (c : String), (process_file_attempt g w f).2 =
        [FsEvent.mkdirParents docs.parts.dropLast, FsEvent.unlink docs.parts,
         FsEvent.writeFile docs.parts c]) := by
    unfold process_file_attempt gen_notebook_docs gen_python_docs
    by_cases hnb : f.suffix = ".ipynb"
    · rw [if_pos hnb]
      cases hp : prepare_docs_path g f with
      | error e => left; rfl
      | ok pr =>
        obtain ⟨docs, evs⟩ := pr
        have hevs := prepare_docs_path_events g f docs evs hp
        cases hr : w.renderNb f g.execute with
        | error e => right; left; exact ⟨docs, by simp [hevs]⟩
        | ok md => right; right; exact ⟨docs, md, by simp [hevs]⟩
    · rw [if_neg hnb]
      by_cases hpy : f.suffix = ".py"
      · rw [if_pos hpy]
        cases hp : prepare_docs_path g f with
        | error e => left; rfl
        | ok pr =>
          obtain ⟨docs, evs⟩ := pr
          have hevs := prepare_docs_path_events g f docs evs hp
          cases hr : python_note_content g w f with
          | error e => right; left; exact ⟨docs, by simp [hevs]⟩
          | ok content => right; right; exact ⟨docs, content, by simp [hevs]⟩
      · rw [if_neg hpy]
        left
        rfl
  cases hcase : process_file_attempt g w f with
  | mk r evs =>
    rw [hpf r evs hcase]
    rw [hcase] at main
    exact main

/-- No per-file processing step removes the output directory. -/
theorem process_file_no_rmtree (g : DocsGenerator) (w : World) (f : PyPath) :
    FsEvent.rmtreeOutput ∉ (process_file g w f).2 := by
  rcases process_file_events_shape g w f with h | ⟨docs, h⟩ | ⟨docs, c, h⟩ <;>
    rw [h] <;> simp

/-- Every stub write in a file's processing is accompanied by the creation
of its parent directory. -/
theorem process_file_write_mkdir (g : DocsGenerator) (w : World) (f : PyPath)
    (p : List String) (c : String)
    (h : FsEvent.writeFile p c ∈ (process_file g w f).2) :
    FsEvent.mkdirParents p.dropLast ∈ (process_file g w f).2 := by
  rcases process_file_events_shape g w f with hs | ⟨docs, hs⟩ | ⟨docs, c', hs⟩ <;>
    rw [hs] at h ⊢ <;> simp_all

/-- The batch trace is the concatenation of the per-file traces; membership
facts lift through it. -/
theorem batchEvents_mem (g : DocsGenerator) (w : World) (files : List PyPath)
    (e : FsEvent) (h : e ∈ batchEvents g w files) :
    ∃ f ∈ files, e ∈ (process_file g w f).2 := by
  induction files with
  | nil => exact absurd h (by simp [batchEvents])
  | cons a t ih =>
    unfold batchEvents at h
    rw [List.foldr_cons] at h
    rcases List.mem_append.mp h with h1 | h2
    · exact ⟨a, by simp, h1⟩
    · obtain ⟨f, hf, he⟩ := ih h2
      exact ⟨f, by simp [hf], he⟩

theorem batchEvents_mem_of (g : DocsGenerator) (w : World) (files : List PyPath)
    (e : FsEvent) (f : PyPath) (hf : f ∈ files) (he : e ∈ (process_file g w f).2) :
    e ∈ batchEvents g w files := by
  induction files with
  | nil => exact absurd hf (by simp)
  | cons a t ih =>
    unfold batchEvents
    rw [List.foldr_cons]
    rcases List.mem_cons.mp hf with h1 | h2
    · subst h1; exact List.mem_append.mpr (Or.inl he)
    · exact List.mem_append.mpr (Or.inr (ih h2))

theorem batchEvents_no_rmtree (g : DocsGenerator) (w : World) (files : List PyPath) :
    FsEvent.rmtreeOutput ∉ batchEvents g w files := by
  intro h
  obtain ⟨f, _, he⟩ := batchEvents_mem g w files _ h
  exact process_file_no_rmtree g w f he

/-- Reduction of `gen_docs` once the discovery step's result is known. -/
theorem gen_docs_eq_of_cached (st : GenState) (w : World) (files : List PyPath)
    (st' : GenState) (evs0 : List FsEvent)
    (hsc : source_files_cached st w = .ok (files, st', evs0)) :
    gen_docs st w =
      if files.isEmpty then some (.ok ((files.length, 0), st', evs0))
      else
        match process_batch st'.gen w files with
        | none => none
        | some (.error e) => some (.error e)
        | some (.ok (results, evs1)) =>
          some (.ok ((files.length, (results.filter (fun r => r != "")).length),
            st', evs0 ++ evs1)) := by
  unfold gen_docs
  rw [hsc]

/-- `process_batch` with at least one permit processes every file. -/
theorem process_batch_pos (g : DocsGenerator) (w : World) (files : List PyPath)
    (hcon : 1 ≤ g.concurrency) :
    process_batch g w files =
      some (.ok (files.map (fun f => (process_file g w f).1), batchEvents g w files)) := by
  unfold process_batch
  rw [if_neg (by omega), if_neg (by rintro ⟨h1, h2⟩; omega)]

/-- The state returned by a `source_files` access carries the same
generator object. -/
theorem source_files_cached_gen (st : GenState) (w : World) (files : List PyPath)
    (st' : GenState) (evs0 : List FsEvent)
    (h : source_files_cached st w = .ok (files, st', evs0)) : st'.gen = st.gen := by
  unfold source_files_cached at h
  cases hc : st.sourceFilesCache with
  | some l =>
    rw [hc] at h
    simp only at h
    injection h with h1
    injection h1 with h2 h3
    injection h3 with h4 h5
    rw [← h4]
  | none =>
    rw [hc] at h
    cases hs : source_files_compute st.gen w with
    | error e => rw [hs] at h; exact absurd h (by simp)
    | ok res =>
      obtain ⟨fs, evs⟩ := res
      rw [hs] at h
      simp only at h
      injection h with h1
      injection h1 with h2 h3
      injection h3 with h4 h5
      rw [← h4]

/-! ### Claims -/

/-- C2 (counterexample): the claim says a file declaring classes `Foo` and
`_Bar` yields a stub referencing `Foo` only, never `_Bar`.  On the code,
class mode walks the AST and emits one line for every `ClassDef` with no
underscore filter: the module `class Foo: ...` / `class _Bar: ...` in file
`src/a/b.py` produces a two-line stub that does reference `_Bar`, not the
single `Foo` line the claim requires. -/
theorem c2_counterexample_underscore_class_emitted :
    pyContent Mode.cls ⟨["src", "a", "b.py"]⟩
        [PyNode.classDef "Foo" [], PyNode.classDef "_Bar" []] =
      "::: src.a.b.Foo\n::: src.a.b._Bar\n" ∧
    pyContent Mode.cls ⟨["src", "a", "b.py"]⟩
        [PyNode.classDef "Foo" [], PyNode.classDef "_Bar" []] ≠
      "::: src.a.b.Foo\n" :=
  ⟨rfl, by decide⟩

/-- C2 (amended): in class mode, for every code file the generator emits
exactly one reference line `::: <dotted-module-path>.<ClassName>` per
`ClassDef` node reached by `ast.walk` — at any nesting depth and whether or
not the name begins with an underscore — in walk order, and nothing else. -/
theorem c2_amended_one_line_per_walked_class (file : PyPath) (tree : List PyNode)
    (h : classNamesOf tree ≠ []) :
    pyContent Mode.cls file tree =
      String.join ((classNamesOf tree).map (fun nm => classRefLine file nm)) := by
  rw [pyContent_cls_of_names file tree h, classRefContent_eq_join]

/-- Witness for C2 (amended) at the `Foo` / `_Bar` module. -/
theorem c2_amended_one_line_per_walked_class_witness :
    classNamesOf [PyNode.classDef "Foo" [], PyNode.classDef "_Bar" []] ≠ [] ∧
    pyContent Mode.cls ⟨["src", "a", "b.py"]⟩
        [PyNode.classDef "Foo" [], PyNode.classDef "_Bar" []] =
      String.join ((classNamesOf [PyNode.classDef "Foo" [], PyNode.classDef "_Bar" []]).map
        (fun nm => classRefLine ⟨["src", "a", "b.py"]⟩ nm)) :=
  ⟨by decide, c2_amended_one_line_per_walked_class _ _ (by decide)⟩

/-- C4 (counterexample): the claim says a file with zero top-level public
(non-underscore) classes falls back to the per-file stub.  The code only
falls back when `ast.walk` finds no `ClassDef` at all: the module
`class _Bar: ...` has zero top-level public classes, yet class mode
produces `::: src.a.b._Bar`, different from the per-file stub
`::: src.a.b`. -/
theorem c4_counterexample_underscore_only_class :
    pyContent Mode.cls ⟨["src", "a", "b.py"]⟩ [PyNode.classDef "_Bar" []] =
      "::: src.a.b._Bar\n" ∧
    pyContent Mode.file ⟨["src", "a", "b.py"]⟩ [PyNode.classDef "_Bar" []] =
      "::: src.a.b\n" ∧
    pyContent Mode.cls ⟨["src", "a", "b.py"]⟩ [PyNode.classDef "_Bar" []] ≠
      pyContent Mode.file ⟨["src", "a", "b.py"]⟩ [PyNode.classDef "_Bar" []] :=
  ⟨rfl, rfl, by decide⟩

/-- C4 (amended): for every code file containing no class declaration at
all (no `ClassDef` node anywhere in its AST), the class-mode stub content
equals the per-file-mode content for that same file. -/
theorem c4_amended_fallback_iff_no_classes_at_all (file : PyPath) (tree : List PyNode)
    (h : classNamesOf tree = []) :
    pyContent Mode.cls file tree = pyContent Mode.file file tree := by
  rw [pyContent_cls_of_no_names file tree h, pyContent_file]

/-- Witness for C4 (amended) at a module declaring only a function. -/
theorem c4_amended_fallback_iff_no_classes_at_all_witness :
    classNamesOf [PyNode.funcDef "main" [PyNode.other []]] = [] ∧
    pyContent Mode.cls ⟨["src", "hello.py"]⟩ [PyNode.funcDef "main" [PyNode.other []]] =
      pyContent Mode.file ⟨["src", "hello.py"]⟩ [PyNode.funcDef "main" [PyNode.other []]] :=
  ⟨by decide, c4_amended_fallback_iff_no_classes_at_all _ _ (by decide)⟩

/-- C1 (counterexample): the claim says two distinct discovered files never
resolve to the same output path.  Both `a/b.py` and `a/b.ipynb` under
source `src` are discovered in one directory run (both extensions are
collected), they are distinct files with distinct relative paths, yet both
resolve to the output path `docs/Reference/a/b.md`, because
`_prepare_docs_path` replaces either extension by `.md`. -/
theorem c1_counterexample_stem_collision :
    source_files_compute
        ⟨⟨["src"]⟩, ⟨["docs", "Reference"]⟩, ".venv", Mode.cls, false, 10⟩
        ⟨SourceKind.isDir, false, [["a", "b.py"], ["a", "b.ipynb"]],
          fun _ => .ok [], fun _ _ => .ok ""⟩ =
      .ok ([⟨["src", "a", "b.py"]⟩, ⟨["src", "a", "b.ipynb"]⟩], []) ∧
    (⟨["src", "a", "b.py"]⟩ : PyPath) ≠ ⟨["src", "a", "b.ipynb"]⟩ ∧
    prepare_docs_path ⟨⟨["src"]⟩, ⟨["docs", "Reference"]⟩, ".venv", Mode.cls, false, 10⟩
        ⟨["src", "a", "b.py"]⟩ =
      .ok (⟨["docs", "Reference", "a", "b.md"]⟩,
        [FsEvent.mkdirParents ["docs", "Reference", "a"],
         FsEvent.unlink ["docs", "Reference", "a", "b.md"]]) ∧
    prepare_docs_path ⟨⟨["src"]⟩, ⟨["docs", "Reference"]⟩, ".venv", Mode.cls, false, 10⟩
        ⟨["src", "a", "b.ipynb"]⟩ =
      .ok (⟨["docs", "Reference", "a", "b.md"]⟩,
        [FsEvent.mkdirParents ["docs", "Reference", "a"],
         FsEvent.unlink ["docs", "Reference", "a", "b.md"]]) :=
  ⟨rfl, by decide, rfl, rfl⟩

/-- C1 (amended): the output-path mapping is injective on the pair
(mirrored relative parent directory, stub filename): two discovered files
whose `.md`-stub filenames differ, or whose parent directories mirror to
different relative directories, always resolve to distinct output paths.
(Only files sharing a directory and a stem — such as `a/b.py` and
`a/b.ipynb` — can collide.) -/
theorem c1_amended_distinct_paths (g : DocsGenerator) (f₁ f₂ d₁ d₂ : PyPath)
    (e₁ e₂ : List FsEvent)
    (h₁ : prepare_docs_path g f₁ = .ok (d₁, e₁))
    (h₂ : prepare_docs_path g f₂ = .ok (d₂, e₂))
    (hne : mdName f₁ ≠ mdName f₂ ∨ relParentOpt g f₁ ≠ relParentOpt g f₂) :
    d₁ ≠ d₂ := by
  obtain ⟨r₁, hr₁, hd₁⟩ := prepare_docs_path_shape g f₁ d₁ e₁ h₁
  obtain ⟨r₂, hr₂, hd₂⟩ := prepare_docs_path_shape g f₂ d₂ e₂ h₂
  intro he
  have hparts : d₁.parts = d₂.parts := congrArg PyPath.parts he
  rw [hd₁, hd₂] at hparts
  have h3 := List.append_cancel_left hparts
  have h4 := List.append_inj' h3 (by simp)
  rcases hne with hn | hn
  · exact hn (by simpa using h4.2)
  · exact hn (by rw [hr₁, hr₂, h4.1])

/-- Witness for C1 (amended): `src/a/b.py` and `src/c/b.py` mirror to
different relative directories and get distinct output paths. -/
theorem c1_amended_distinct_paths_witness :
    (prepare_docs_path ⟨⟨["src"]⟩, ⟨["docs", "Reference"]⟩, ".venv", Mode.cls, false, 10⟩
        ⟨["src", "a", "b.py"]⟩ =
      .ok (⟨["docs", "Reference", "a", "b.md"]⟩,
        [FsEvent.mkdirParents ["docs", "Reference", "a"],
         FsEvent.unlink ["docs", "Reference", "a", "b.md"]]) ∧
     prepare_docs_path ⟨⟨["src"]⟩, ⟨["docs", "Reference"]⟩, ".venv", Mode.cls, false, 10⟩
        ⟨["src", "c", "b.py"]⟩ =
      .ok (⟨["docs", "Reference", "c", "b.md"]⟩,
        [FsEvent.mkdirParents ["docs", "Reference", "c"],
         FsEvent.unlink ["docs", "Reference", "c", "b.md"]]) ∧
     relParentOpt ⟨⟨["src"]⟩, ⟨["docs", "Reference"]⟩, ".venv", Mode.cls, false, 10⟩
        ⟨["src", "a", "b.py"]⟩ ≠
       relParentOpt ⟨⟨["src"]⟩, ⟨["docs", "Reference"]⟩, ".venv", Mode.cls, false, 10⟩
        ⟨["src", "c", "b.py"]⟩) ∧
    (⟨["docs", "Reference", "a", "b.md"]⟩ : PyPath) ≠ ⟨["docs", "Reference", "c", "b.md"]⟩ :=
  ⟨⟨rfl, rfl, by decide⟩,
    c1_amended_distinct_paths
      ⟨⟨["src"]⟩, ⟨["docs", "Reference"]⟩, ".venv", Mode.cls, false, 10⟩
      ⟨["src", "a", "b.py"]⟩ ⟨["src", "c", "b.py"]⟩
      ⟨["docs", "Reference", "a", "b.md"]⟩ ⟨["docs", "Reference", "c", "b.md"]⟩
      [FsEvent.mkdirParents ["docs", "Reference", "a"],
       FsEvent.unlink ["docs", "Reference", "a", "b.md"]]
      [FsEvent.mkdirParents ["docs", "Reference", "c"],
       FsEvent.unlink ["docs", "Reference", "c", "b.md"]]
      rfl rfl (Or.inr (by decide))⟩

/-- C5 (counterexample): the claim says constructing a configuration with
`concurrency <= 0` fails with a configuration error.  The pydantic field is
declared `concurrency: int = Field(default=10, ...)` with no bound, so the
construction with concurrency `0` succeeds. -/
theorem c5_counterexample_zero_concurrency_accepted :
    mkDocsGenerator ⟨["src"]⟩ ⟨["docs", "Reference"]⟩ ".venv" "class" false 0 =
      .ok ⟨⟨["src"]⟩, ⟨["docs", "Reference"]⟩, ".venv", Mode.cls, false, 0⟩ := rfl

/-- C5 (amended): construction performs no concurrency validation: every
integer concurrency is accepted whenever the mode literal parses.  A
negative concurrency fails only later, inside the batch runner, where
`asyncio.Semaphore` raises `ValueError` (and zero permits make a nonempty
batch hang instead of erroring). -/
theorem c5_amended_no_concurrency_validation (source output : PyPath)
    (exclude mode : String) (execute : Bool) (c : Int) (m : Mode)
    (hm : parseMode mode = .ok m) :
    mkDocsGenerator source output exclude mode execute c =
      .ok ⟨source, output, exclude, m, execute, c⟩ ∧
    (∀ (w : World) (files : List PyPath), c < 0 →
      process_batch ⟨source, output, exclude, m, execute, c⟩ w files =
        some (.error "Semaphore initial value must be greater or equal than 0")) := by
  constructor
  · unfold mkDocsGenerator
    rw [hm]
  · intro w files hc
    unfold process_batch
    rw [if_pos hc]

/-- Witness for C5 (amended) at concurrency `-5`. -/
theorem c5_amended_no_concurrency_validation_witness :
    parseMode "class" = .ok Mode.cls ∧
    mkDocsGenerator ⟨["src"]⟩ ⟨["docs", "Reference"]⟩ ".venv" "class" false (-5) =
      .ok ⟨⟨["src"]⟩, ⟨["docs", "Reference"]⟩, ".venv", Mode.cls, false, -5⟩ ∧
    process_batch ⟨⟨["src"]⟩, ⟨["docs", "Reference"]⟩, ".venv", Mode.cls, false, -5⟩
        ⟨SourceKind.isDir, false, [], fun _ => .ok [], fun _ _ => .ok ""⟩
        [⟨["src", "x.py"]⟩] =
      some (.error "Semaphore initial value must be greater or equal than 0") :=
  ⟨rfl,
   (c5_amended_no_concurrency_validation ⟨["src"]⟩ ⟨["docs", "Reference"]⟩ ".venv" "class"
      false (-5) Mode.cls rfl).1,
   (c5_amended_no_concurrency_validation ⟨["src"]⟩ ⟨["docs", "Reference"]⟩ ".venv" "class"
      false (-5) Mode.cls rfl).2
     ⟨SourceKind.isDir, false, [], fun _ => .ok [], fun _ _ => .ok ""⟩
     [⟨["src", "x.py"]⟩] (by decide)⟩

/-- C7: in a directory run, no discovered file has, among its path
segments, any entry of the comma-split and stripped exclude list, nor the
built-in exclusions `.venv` and `__init__.py`. -/
theorem c7_excluded_segments_absent (g : DocsGenerator) (w : World)
    (files : List PyPath) (evs : List FsEvent)
    (hd : w.sourceKind = SourceKind.isDir)
    (h : source_files_compute g w = .ok (files, evs))
    (f : PyPath) (hf : f ∈ files) :
    (∀ s ∈ (pySplitChar ',' g.exclude).map (fun s => pyStrip s), s ∉ f.parts) ∧
    ".venv" ∉ f.parts ∧ "__init__.py" ∉ f.parts := by
  unfold source_files_compute at h
  rw [hd] at h
  simp only at h
  injection h with h1
  have hkept : files = (get_all_files g w "py,ipynb").filter
      (fun f => !((((pySplitChar ',' g.exclude).map (fun s => pyStrip s)
          ++ builtinExcludes).dedup).any (fun e => f.parts.contains e))) := by
    injection h1 with h2 h3
    exact h2.symm
  rw [hkept] at hf
  have hmem := (List.mem_filter.mp hf).2
  rw [Bool.not_eq_true'] at hmem
  have hnone : ∀ s ∈ ((pySplitChar ',' g.exclude).map (fun s => pyStrip s)
      ++ builtinExcludes).dedup, s ∉ f.parts := by
    intro s hs hin
    have ht : ((((pySplitChar ',' g.exclude).map (fun s => pyStrip s)
        ++ builtinExcludes).dedup).any (fun e => f.parts.contains e)) = true :=
      List.any_eq_true.mpr ⟨s, hs, List.elem_eq_true_of_mem hin⟩
    rw [hmem] at ht
    exact absurd ht (by simp)
  refine ⟨?_, ?_, ?_⟩
  · intro s hs
    exact hnone s (List.mem_dedup.mpr (List.mem_append.mpr (Or.inl hs)))
  · exact hnone ".venv"
      (List.mem_dedup.mpr (List.mem_append.mpr (Or.inr (by simp [builtinExcludes]))))
  · exact hnone "__init__.py"
      (List.mem_dedup.mpr (List.mem_append.mpr (Or.inr (by simp [builtinExcludes]))))

/-- Witness for C7: a directory run over files `a/b.py`, `.venv/x.py`,
`sub/__init__.py` and `.git/h.py` with exclude `".venv, .git"` keeps only
`src/a/b.py`, and that file has no excluded segment. -/
theorem c7_excluded_segments_absent_witness :
    source_files_compute
        ⟨⟨["src"]⟩, ⟨["docs", "Reference"]⟩, ".venv, .git", Mode.cls, false, 10⟩
        ⟨SourceKind.isDir, false,
          [["a", "b.py"], [".venv", "x.py"], ["sub", "__init__.py"], [".git", "h.py"]],
          fun _ => .ok [], fun _ _ => .ok ""⟩ =
      .ok ([⟨["src", "a", "b.py"]⟩], []) ∧
    ((∀ s ∈ (pySplitChar ','
        (".venv, .git" : String)).map (fun s => pyStrip s),
          s ∉ (⟨["src", "a", "b.py"]⟩ : PyPath).parts) ∧
      ".venv" ∉ (⟨["src", "a", "b.py"]⟩ : PyPath).parts ∧
      "__init__.py" ∉ (⟨["src", "a", "b.py"]⟩ : PyPath).parts) :=
  ⟨rfl,
   c7_excluded_segments_absent
     ⟨⟨["src"]⟩, ⟨["docs", "Reference"]⟩, ".venv, .git", Mode.cls, false, 10⟩
     ⟨SourceKind.isDir, false,
       [["a", "b.py"], [".venv", "x.py"], ["sub", "__init__.py"], [".git", "h.py"]],
       fun _ => .ok [], fun _ _ => .ok ""⟩
     [⟨["src", "a", "b.py"]⟩] [] rfl rfl ⟨["src", "a", "b.py"]⟩ (by decide)⟩

/-- C8: when the source is an existing single file, discovery returns
exactly the one-element list containing that path, for every exclude
setting and whatever the extension of the file. -/
theorem c8_single_file_discovery (g : DocsGenerator) (w : World)
    (hf : w.sourceKind = SourceKind.isFile) :
    source_files_compute g w = .ok ([g.source_path], []) := by
  unfold source_files_compute
  rw [hf]

/-- Witness for C8: a single-file source with an unsupported extension
whose own name is in the exclude list is still discovered. -/
theorem c8_single_file_discovery_witness :
    (⟨SourceKind.isFile, false, [], fun _ => .ok [], fun _ _ => .ok ""⟩ :
        World).sourceKind = SourceKind.isFile ∧
    source_files_compute
        ⟨⟨["notes.txt"]⟩, ⟨["docs", "Reference"]⟩, "notes.txt", Mode.cls, false, 10⟩
        ⟨SourceKind.isFile, false, [], fun _ => .ok [], fun _ _ => .ok ""⟩ =
      .ok ([⟨["notes.txt"]⟩], []) :=
  ⟨rfl,
   c8_single_file_discovery
     ⟨⟨["notes.txt"]⟩, ⟨["docs", "Reference"]⟩, "notes.txt", Mode.cls, false, 10⟩
     ⟨SourceKind.isFile, false, [], fun _ => .ok [], fun _ _ => .ok ""⟩ rfl⟩

/-- C6 (counterexample): the claim says every invocation of the pipeline
re-runs discovery and the output wipe.  `source_files` is a
`cached_property`: after a first `gen_docs` run (summary `(1, 1)`, trace
starting with the output wipe) the returned state carries the cached list;
a second `gen_docs` on that same object — against a filesystem that now
contains no files at all but an existing output directory — still
processes the one stale cached file, reports `(1, 1)` instead of `(0, 0)`,
and performs no output wipe, while a fresh discovery on that second
filesystem would have found nothing (and wiped the output directory). -/
theorem c6_counterexample_cached_discovery :
    gen_docs
        ⟨⟨⟨["src"]⟩, ⟨["docs", "Reference"]⟩, ".venv", Mode.cls, false, 10⟩, none⟩
        ⟨SourceKind.isDir, true, [["a", "b.py"]], fun _ => .ok [], fun _ _ => .ok ""⟩ =
      some (.ok ((1, 1),
        ⟨⟨⟨["src"]⟩, ⟨["docs", "Reference"]⟩, ".venv", Mode.cls, false, 10⟩,
          some [⟨["src", "a", "b.py"]⟩]⟩,
        [FsEvent.rmtreeOutput,
         FsEvent.mkdirParents ["docs", "Reference", "a"],
         FsEvent.unlink ["docs", "Reference", "a", "b.md"],
         FsEvent.writeFile ["docs", "Reference", "a", "b.md"] "::: src.a.b\n"])) ∧
    gen_docs
        ⟨⟨⟨["src"]⟩, ⟨["docs", "Reference"]⟩, ".venv", Mode.cls, false, 10⟩,
          some [⟨["src", "a", "b.py"]⟩]⟩
        ⟨SourceKind.isDir, true, [], fun _ => .ok [], fun _ _ => .ok ""⟩ =
      some (.ok ((1, 1),
        ⟨⟨⟨["src"]⟩, ⟨["docs", "Reference"]⟩, ".venv", Mode.cls, false, 10⟩,
          some [⟨["src", "a", "b.py"]⟩]⟩,
        [FsEvent.mkdirParents ["docs", "Reference", "a"],
         FsEvent.unlink ["docs", "Reference", "a", "b.md"],
         FsEvent.writeFile ["docs", "Reference", "a", "b.md"] "::: src.a.b\n"])) ∧
    source_files_compute
        ⟨⟨["src"]⟩, ⟨["docs", "Reference"]⟩, ".venv", Mode.cls, false, 10⟩
        ⟨SourceKind.isDir, true, [], fun _ => .ok [], fun _ _ => .ok ""⟩ =
      .ok ([], [FsEvent.rmtreeOutput]) ∧
    FsEvent.rmtreeOutput ∉
      ([FsEvent.mkdirParents ["docs", "Reference", "a"],
        FsEvent.unlink ["docs", "Reference", "a", "b.md"],
        FsEvent.writeFile ["docs", "Reference", "a", "b.md"] "::: src.a.b\n"] :
        List FsEvent) :=
  ⟨rfl, rfl, rfl, by decide⟩

/-- C6 (amended): discovery runs once per configuration object: the first
pipeline invocation computes the file list (and wipes the output
directory) and stores it in the `cached_property` slot; any invocation on
a state whose slot is filled returns the stored list unchanged, regardless
of the current filesystem, with no wipe — so the file list is not
recomputed on later runs of the same object, only on a fresh object. -/
theorem c6_amended_second_run_uses_cache (st : GenState) (w : World) (l : List PyPath)
    (hc : st.sourceFilesCache = some l) (hcon : 1 ≤ st.gen.concurrency) :
    source_files_cached st w = .ok (l, st, []) ∧
    ∃ (n : Nat) (evs : List FsEvent),
      gen_docs st w = some (.ok ((l.length, n), st, evs)) ∧
      FsEvent.rmtreeOutput ∉ evs := by
  have hsc : source_files_cached st w = .ok (l, st, []) := by
    unfold source_files_cached
    rw [hc]
  refine ⟨hsc, ?_⟩
  rw [gen_docs_eq_of_cached st w l st [] hsc]
  by_cases he : l.isEmpty
  · rw [if_pos he]
    exact ⟨0, [], rfl, by simp⟩
  · rw [if_neg he, process_batch_pos st.gen w l hcon]
    refine ⟨_, [] ++ batchEvents st.gen w l, rfl, ?_⟩
    intro hmem
    rw [List.nil_append] at hmem
    exact batchEvents_no_rmtree st.gen w l hmem

/-- Witness for C6 (amended): a state with a one-file cache against an
empty filesystem. -/
theorem c6_amended_second_run_uses_cache_witness :
    (⟨⟨⟨["src"]⟩, ⟨["docs", "Reference"]⟩, ".venv", Mode.cls, false, 10⟩,
        some [⟨["src", "a", "b.py"]⟩]⟩ : GenState).sourceFilesCache =
      some [⟨["src", "a", "b.py"]⟩] ∧
    (1 : Int) ≤ 10 ∧
    (source_files_cached
        ⟨⟨⟨["src"]⟩, ⟨["docs", "Reference"]⟩, ".venv", Mode.cls, false, 10⟩,
          some [⟨["src", "a", "b.py"]⟩]⟩
        ⟨SourceKind.isDir, true, [], fun _ => .ok [], fun _ _ => .ok ""⟩ =
      .ok ([⟨["src", "a", "b.py"]⟩],
        ⟨⟨⟨["src"]⟩, ⟨["docs", "Reference"]⟩, ".venv", Mode.cls, false, 10⟩,
          some [⟨["src", "a", "b.py"]⟩]⟩, []) ∧
     ∃ (n : Nat) (evs : List FsEvent), gen_docs
        ⟨⟨⟨["src"]⟩, ⟨["docs", "Reference"]⟩, ".venv", Mode.cls, false, 10⟩,
          some [⟨["src", "a", "b.py"]⟩]⟩
        ⟨SourceKind.isDir, true, [], fun _ => .ok [], fun _ _ => .ok ""⟩ =
      some (.ok (([(⟨["src", "a", "b.py"]⟩ : PyPath)].length, n),
        ⟨⟨⟨["src"]⟩, ⟨["docs", "Reference"]⟩, ".venv", Mode.cls, false, 10⟩,
          some [⟨["src", "a", "b.py"]⟩]⟩, evs)) ∧
      FsEvent.rmtreeOutput ∉ evs) :=
  ⟨rfl, by decide,
   c6_amended_second_run_uses_cache
     ⟨⟨⟨["src"]⟩, ⟨["docs", "Reference"]⟩, ".venv", Mode.cls, false, 10⟩,
       some [⟨["src", "a", "b.py"]⟩]⟩
     ⟨SourceKind.isDir, true, [], fun _ => .ok [], fun _ _ => .ok ""⟩
     [⟨["src", "a", "b.py"]⟩] rfl (by decide)⟩

/-- When the cache slot is empty, `source_files` runs the property body and
stores the result. -/
theorem source_files_cached_none (st : GenState) (w : World)
    (hc : st.sourceFilesCache = none) (files : List PyPath) (evs : List FsEvent)
    (h : source_files_compute st.gen w = .ok (files, evs)) :
    source_files_cached st w = .ok (files, ⟨st.gen, some files⟩, evs) := by
  unfold source_files_cached
  rw [hc, h]

/-- A directory-mode discovery over an existing output directory emits
exactly the removal of the output directory. -/
theorem source_files_compute_dir_events (g : DocsGenerator) (w : World)
    (files : List PyPath) (evs : List FsEvent)
    (hd : w.sourceKind = SourceKind.isDir) (hx : w.outputExists = true)
    (h : source_files_compute g w = .ok (files, evs)) :
    evs = [FsEvent.rmtreeOutput] := by
  unfold source_files_compute at h
  rw [hd] at h
  simp only [hx, if_true] at h
  injection h with h1
  injection h1 with h2 h3
  exact h3.symm

/-- Inversion of a successful batch: the results are the per-file results
in order and the events are the per-file events. -/
theorem process_batch_ok_inv (g : DocsGenerator) (w : World) (files : List PyPath)
    (results : List String) (evs1 : List FsEvent)
    (h : process_batch g w files = some (.ok (results, evs1))) :
    results = files.map (fun f => (process_file g w f).1) ∧
    evs1 = batchEvents g w files := by
  unfold process_batch at h
  by_cases h1 : g.concurrency < 0
  · rw [if_pos h1] at h
    exact absurd h (by simp)
  · rw [if_neg h1] at h
    by_cases h2 : g.concurrency = 0 ∧ files ≠ []
    · rw [if_pos h2] at h
      exact absurd h (by simp)
    · rw [if_neg h2] at h
      simp only [Option.some.injEq, Except.ok.injEq, Prod.mk.injEq] at h
      exact ⟨h.1.symm, h.2.symm⟩

/-- C3 (counterexample): the claim says the output directory is deleted and
recreated at the start of every directory run.  A run whose discovery
finds no files (here the tree holds only a `__init__.py`, which is always
excluded) deletes the existing output directory and ends with a trace that
contains no directory creation at all: the output directory is gone after
the run, not recreated. -/
theorem c3_counterexample_deleted_not_recreated :
    gen_docs
        ⟨⟨⟨["src"]⟩, ⟨["docs", "Reference"]⟩, ".venv", Mode.cls, false, 10⟩, none⟩
        ⟨SourceKind.isDir, true, [["__init__.py"]], fun _ => .ok [], fun _ _ => .ok ""⟩ =
      some (.ok ((0, 0),
        ⟨⟨⟨["src"]⟩, ⟨["docs", "Reference"]⟩, ".venv", Mode.cls, false, 10⟩, some []⟩,
        [FsEvent.rmtreeOutput])) ∧
    (∀ d : List String, FsEvent.mkdirParents d ∉ ([FsEvent.rmtreeOutput] : List FsEvent)) :=
  ⟨rfl, by intro d hd; simp at hd⟩

/-- C3 (amended): in a directory run over an existing output directory the
wipe is the first filesystem event — in particular it precedes every stub
write — and it happens exactly once; the output directory is not recreated
at the start but on demand: every stub write in the rest of the trace is
accompanied by a creation of the stub's parent directory (so a run that
writes no stub leaves the output directory deleted). -/
theorem c3_amended_wipe_first_recreate_on_demand (st : GenState) (w : World)
    (sum : Nat × Nat) (st' : GenState) (trace : List FsEvent)
    (hd : w.sourceKind = SourceKind.isDir)
    (hx : w.outputExists = true)
    (hc : st.sourceFilesCache = none)
    (h : gen_docs st w = some (.ok (sum, st', trace))) :
    ∃ rest, trace = FsEvent.rmtreeOutput :: rest ∧
      FsEvent.rmtreeOutput ∉ rest ∧
      ∀ (p : List String) (c : String), FsEvent.writeFile p c ∈ rest →
        FsEvent.mkdirParents p.dropLast ∈ rest := by
  cases hs : source_files_compute st.gen w with
  | error e =>
    have hsc : source_files_cached st w = .error e := by
      unfold source_files_cached
      rw [hc, hs]
    unfold gen_docs at h
    rw [hsc] at h
    simp at h
  | ok res =>
    obtain ⟨files, evs0⟩ := res
    have hevs0 := source_files_compute_dir_events st.gen w files evs0 hd hx hs
    subst hevs0
    have hsc := source_files_cached_none st w hc files _ hs
    rw [gen_docs_eq_of_cached st w files _ _ hsc] at h
    by_cases hK : files.isEmpty
    · rw [if_pos hK] at h
      simp only [Option.some.injEq, Except.ok.injEq, Prod.mk.injEq] at h
      refine ⟨[], ?_, by simp, by simp⟩
      rw [← h.2.2]
    · rw [if_neg hK] at h
      cases hpb : process_batch (⟨st.gen, some files⟩ : GenState).gen w files with
      | none =>
        rw [hpb] at h
        simp at h
      | some r =>
        cases r with
        | error e =>
          rw [hpb] at h
          simp at h
        | ok pr =>
          obtain ⟨results, evs1⟩ := pr
          rw [hpb] at h
          simp only [Option.some.injEq, Except.ok.injEq, Prod.mk.injEq] at h
          have hinv := process_batch_ok_inv _ w files results evs1 hpb
          refine ⟨evs1, ?_, ?_, ?_⟩
          · rw [← h.2.2]
            rfl
          · rw [hinv.2]
            exact batchEvents_no_rmtree _ w files
          · intro p c hw
            rw [hinv.2] at hw ⊢
            obtain ⟨f, hf, he⟩ := batchEvents_mem _ w files _ hw
            exact batchEvents_mem_of _ w files _ f hf
              (process_file_write_mkdir _ w f p c he)

/-- Witness for C3 (amended): the one-file directory run; the wipe leads
the trace and the write of `docs/Reference/a/b.md` is preceded by the
creation of `docs/Reference/a`. -/
theorem c3_amended_wipe_first_recreate_on_demand_witness :
    (⟨SourceKind.isDir, true, [["a", "b.py"]], fun _ => .ok [], fun _ _ => .ok ""⟩ :
        World).sourceKind = SourceKind.isDir ∧
    (⟨SourceKind.isDir, true, [["a", "b.py"]], fun _ => .ok [], fun _ _ => .ok ""⟩ :
        World).outputExists = true ∧
    (⟨⟨⟨["src"]⟩, ⟨["docs", "Reference"]⟩, ".venv", Mode.cls, false, 10⟩, none⟩ :
        GenState).sourceFilesCache = none ∧
    gen_docs
        ⟨⟨⟨["src"]⟩, ⟨["docs", "Reference"]⟩, ".venv", Mode.cls, false, 10⟩, none⟩
        ⟨SourceKind.isDir, true, [["a", "b.py"]], fun _ => .ok [], fun _ _ => .ok ""⟩ =
      some (.ok ((1, 1),
        ⟨⟨⟨["src"]⟩, ⟨["docs", "Reference"]⟩, ".venv", Mode.cls, false, 10⟩,
          some [⟨["src", "a", "b.py"]⟩]⟩,
        [FsEvent.rmtreeOutput,
         FsEvent.mkdirParents ["docs", "Reference", "a"],
         FsEvent.unlink ["docs", "Reference", "a", "b.md"],
         FsEvent.writeFile ["docs", "Reference", "a", "b.md"] "::: src.a.b\n"])) ∧
    (∃ rest, ([FsEvent.rmtreeOutput,
         FsEvent.mkdirParents ["docs", "Reference", "a"],
         FsEvent.unlink ["docs", "Reference", "a", "b.md"],
         FsEvent.writeFile ["docs", "Reference", "a", "b.md"] "::: src.a.b\n"] :
           List FsEvent) = FsEvent.rmtreeOutput :: rest ∧
      FsEvent.rmtreeOutput ∉ rest ∧
      ∀ (p : List String) (c : String), FsEvent.writeFile p c ∈ rest →
        FsEvent.mkdirParents p.dropLast ∈ rest) :=
  ⟨rfl, rfl, rfl, rfl,
   c3_amended_wipe_first_recreate_on_demand
     ⟨⟨⟨["src"]⟩, ⟨["docs", "Reference"]⟩, ".venv", Mode.cls, false, 10⟩, none⟩
     ⟨SourceKind.isDir, true, [["a", "b.py"]], fun _ => .ok [], fun _ _ => .ok ""⟩
     (1, 1)
     ⟨⟨⟨["src"]⟩, ⟨["docs", "Reference"]⟩, ".venv", Mode.cls, false, 10⟩,
       some [⟨["src", "a", "b.py"]⟩]⟩
     [FsEvent.rmtreeOutput,
      FsEvent.mkdirParents ["docs", "Reference", "a"],
      FsEvent.unlink ["docs", "Reference", "a", "b.md"],
      FsEvent.writeFile ["docs", "Reference", "a", "b.md"] "::: src.a.b\n"]
     rfl rfl rfl rfl⟩

/-- C9: per-file failure is isolated.  Whatever the per-file outcomes: any
exception inside one file's generation is caught in `_process_file` and
turned into an empty (failed) result; the batch completes and the run
reports the summary `(attempted, succeeded)` in which each file
contributes exactly its own result — one file's failure never changes
another file's processing. -/
theorem c9_per_file_isolation (st : GenState) (w : World) (files : List PyPath)
    (st' : GenState) (evs0 : List FsEvent)
    (hcon : 1 ≤ st.gen.concurrency)
    (hsc : source_files_cached st w = .ok (files, st', evs0)) :
    (∀ f ∈ files, ∀ e, (process_file_attempt st.gen w f).1 = .error e →
        (process_file st.gen w f).1 = "") ∧
    ∃ evs1 : List FsEvent, gen_docs st w = some (.ok
      ((files.length,
        ((files.map (fun f => (process_file st.gen w f).1)).filter
          (fun r => r != "")).length),
       st', evs0 ++ evs1)) := by
  have hgen := source_files_cached_gen st w files st' evs0 hsc
  constructor
  · intro f hf e he
    unfold process_file
    cases ha : process_file_attempt st.gen w f with
    | mk r evs =>
      rw [ha] at he
      cases r with
      | error e2 => rfl
      | ok s => exact absurd he (by simp)
  · rw [gen_docs_eq_of_cached st w files st' evs0 hsc]
    by_cases hK : files.isEmpty
    · have hfe : files = [] := by
        cases files with
        | nil => rfl
        | cons a t => simp at hK
      rw [if_pos hK]
      refine ⟨[], ?_⟩
      simp [hfe]
    · rw [if_neg hK, hgen, process_batch_pos st.gen w files hcon]
      exact ⟨batchEvents st.gen w files, rfl⟩

/-- Witness for C9: two files of which the first fails to parse; the batch
still completes with summary `(2, 1)`, the failing file contributes the
empty result and the other file is written. -/
theorem c9_per_file_isolation_witness :
    (1 : Int) ≤ 10 ∧
    source_files_cached
        ⟨⟨⟨["src"]⟩, ⟨["docs", "Reference"]⟩, ".venv", Mode.cls, false, 10⟩, none⟩
        ⟨SourceKind.isDir, true, [["a", "b.py"], ["c", "d.py"]],
          fun p => if p.parts = ["src", "a", "b.py"] then .error "SyntaxError"
            else .ok [PyNode.classDef "K" []],
          fun _ _ => .ok ""⟩ =
      .ok ([⟨["src", "a", "b.py"]⟩, ⟨["src", "c", "d.py"]⟩],
        ⟨⟨⟨["src"]⟩, ⟨["docs", "Reference"]⟩, ".venv", Mode.cls, false, 10⟩,
          some [⟨["src", "a", "b.py"]⟩, ⟨["src", "c", "d.py"]⟩]⟩,
        [FsEvent.rmtreeOutput]) ∧
    ((∀ f ∈ [(⟨["src", "a", "b.py"]⟩ : PyPath), ⟨["src", "c", "d.py"]⟩], ∀ e,
        (process_file_attempt
          ⟨⟨["src"]⟩, ⟨["docs", "Reference"]⟩, ".venv", Mode.cls, false, 10⟩
          ⟨SourceKind.isDir, true, [["a", "b.py"], ["c", "d.py"]],
            fun p => if p.parts = ["src", "a", "b.py"] then .error "SyntaxError"
              else .ok [PyNode.classDef "K" []],
            fun _ _ => .ok ""⟩ f).1 = .error e →
        (process_file
          ⟨⟨["src"]⟩, ⟨["docs", "Reference"]⟩, ".venv", Mode.cls, false, 10⟩
          ⟨SourceKind.isDir, true, [["a", "b.py"], ["c", "d.py"]],
            fun p => if p.parts = ["src", "a", "b.py"] then .error "SyntaxError"
              else .ok [PyNode.classDef "K" []],
            fun _ _ => .ok ""⟩ f).1 = "") ∧
     ∃ evs1 : List FsEvent,
      gen_docs
        ⟨⟨⟨["src"]⟩, ⟨["docs", "Reference"]⟩, ".venv", Mode.cls, false, 10⟩, none⟩
        ⟨SourceKind.isDir, true, [["a", "b.py"], ["c", "d.py"]],
          fun p => if p.parts = ["src", "a", "b.py"] then .error "SyntaxError"
            else .ok [PyNode.classDef "K" []],
          fun _ _ => .ok ""⟩ =
      some (.ok
        (([(⟨["src", "a", "b.py"]⟩ : PyPath), ⟨["src", "c", "d.py"]⟩].length,
          (([(⟨["src", "a", "b.py"]⟩ : PyPath), ⟨["src", "c", "d.py"]⟩].map
            (fun f => (process_file
              ⟨⟨["src"]⟩, ⟨["docs", "Reference"]⟩, ".venv", Mode.cls, false, 10⟩
              ⟨SourceKind.isDir, true, [["a", "b.py"], ["c", "d.py"]],
                fun p => if p.parts = ["src", "a", "b.py"] then .error "SyntaxError"
                  else .ok [PyNode.classDef "K" []],
                fun _ _ => .ok ""⟩ f).1)).filter (fun r => r != "")).length),
         ⟨⟨⟨["src"]⟩, ⟨["docs", "Reference"]⟩, ".venv", Mode.cls, false, 10⟩,
           some [⟨["src", "a", "b.py"]⟩, ⟨["src", "c", "d.py"]⟩]⟩,
         [FsEvent.rmtreeOutput] ++ evs1))) ∧
    gen_docs
        ⟨⟨⟨["src"]⟩, ⟨["docs", "Reference"]⟩, ".venv", Mode.cls, false, 10⟩, none⟩
        ⟨SourceKind.isDir, true, [["a", "b.py"], ["c", "d.py"]],
          fun p => if p.parts = ["src", "a", "b.py"] then .error "SyntaxError"
            else .ok [PyNode.classDef "K" []],
          fun _ _ => .ok ""⟩ =
      some (.ok ((2, 1),
        ⟨⟨⟨["src"]⟩, ⟨["docs", "Reference"]⟩, ".venv", Mode.cls, false, 10⟩,
          some [⟨["src", "a", "b.py"]⟩, ⟨["src", "c", "d.py"]⟩]⟩,
        [FsEvent.rmtreeOutput,
         FsEvent.mkdirParents ["docs", "Reference", "a"],
         FsEvent.unlink ["docs", "Reference", "a", "b.md"],
         FsEvent.mkdirParents ["docs", "Reference", "c"],
         FsEvent.unlink ["docs", "Reference", "c", "d.md"],
         FsEvent.writeFile ["docs", "Reference", "c", "d.md"] "::: src.c.d.K\n"])) :=
  ⟨by decide, rfl,
   c9_per_file_isolation
     ⟨⟨⟨["src"]⟩, ⟨["docs", "Reference"]⟩, ".venv", Mode.cls, false, 10⟩, none⟩
     ⟨SourceKind.isDir, true, [["a", "b.py"], ["c", "d.py"]],
       fun p => if p.parts = ["src", "a", "b.py"] then .error "SyntaxError"
         else .ok [PyNode.classDef "K" []],
       fun _ _ => .ok ""⟩
     [⟨["src", "a", "b.py"]⟩, ⟨["src", "c", "d.py"]⟩]
     ⟨⟨⟨["src"]⟩, ⟨["docs", "Reference"]⟩, ".venv", Mode.cls, false, 10⟩,
       some [⟨["src", "a", "b.py"]⟩, ⟨["src", "c", "d.py"]⟩]⟩
     [FsEvent.rmtreeOutput] (by decide) rfl,
   rfl⟩

/-- An exception from `_prepare_docs_path` makes the file's processing a
caught failure with no filesystem effect, whatever the file's extension. -/
theorem process_file_of_prepare_error (g : DocsGenerator) (w : World) (f : PyPath)
    (e : String) (h : prepare_docs_path g f = .error e) :
    process_file g w f = ("", []) := by
  unfold process_file process_file_attempt gen_notebook_docs gen_python_docs
  rw [h]
  by_cases h1 : f.suffix = ".ipynb"
  · rw [if_pos h1]
  · rw [if_neg h1]
    by_cases h2 : f.suffix = ".py"
    · rw [if_pos h2]
    · rw [if_neg h2]

/-- C10: for every configuration whose source is an existing single file
inside a subdirectory (its parent is not `.`), `_prepare_docs_path` raises
(the file's parent is not relative to the source path, which is the file
itself), so the file's generation always fails: discovery returns the file
but the run's summary is `(1, 0)` — one attempted, zero succeeded. -/
theorem c10_single_file_in_subdir_fails (st : GenState) (w : World)
    (hf : w.sourceKind = SourceKind.isFile)
    (hc : st.sourceFilesCache = none)
    (hp : 2 ≤ st.gen.source_path.parts.length)
    (hcon : 1 ≤ st.gen.concurrency) :
    prepare_docs_path st.gen st.gen.source_path = .error "is not in the subpath" ∧
    source_files_cached st w =
      .ok ([st.gen.source_path], ⟨st.gen, some [st.gen.source_path]⟩, []) ∧
    gen_docs st w =
      some (.ok ((1, 0), ⟨st.gen, some [st.gen.source_path]⟩, [])) := by
  have hnil : st.gen.source_path.parts ≠ [] := by
    intro hn
    rw [hn] at hp
    simp at hp
  have hpp : st.gen.source_path.parentParts ≠ [] := by
    unfold PyPath.parentParts
    intro hn
    have h2 := congrArg List.length hn
    rw [List.length_dropLast] at h2
    simp at h2
    omega
  have hnp : ¬ (st.gen.source_path.parts <+: st.gen.source_path.parentParts) :=
    not_prefix_dropLast hnil
  have hpe := prepare_docs_path_error st.gen st.gen.source_path hpp hnp
  have hs : source_files_compute st.gen w = .ok ([st.gen.source_path], []) := by
    unfold source_files_compute
    rw [hf]
  have hsc := source_files_cached_none st w hc _ _ hs
  refine ⟨hpe, hsc, ?_⟩
  rw [gen_docs_eq_of_cached st w _ _ _ hsc]
  rw [if_neg (by simp)]
  rw [show (⟨st.gen, some [st.gen.source_path]⟩ : GenState).gen = st.gen from rfl]
  rw [process_batch_pos st.gen w [st.gen.source_path] hcon]
  have hpf := process_file_of_prepare_error st.gen w st.gen.source_path _ hpe
  simp [hpf, batchEvents]

/-- Witness for C10 at the single-file source `a/b.py`. -/
theorem c10_single_file_in_subdir_fails_witness :
    (⟨SourceKind.isFile, false, [], fun _ => .ok [], fun _ _ => .ok ""⟩ :
        World).sourceKind = SourceKind.isFile ∧
    (⟨⟨⟨["a", "b.py"]⟩, ⟨["docs"]⟩, ".venv", Mode.cls, false, 10⟩, none⟩ :
        GenState).sourceFilesCache = none ∧
    2 ≤ ([(("a") : String), "b.py"] : List String).length ∧
    (1 : Int) ≤ 10 ∧
    (prepare_docs_path ⟨⟨["a", "b.py"]⟩, ⟨["docs"]⟩, ".venv", Mode.cls, false, 10⟩
        ⟨["a", "b.py"]⟩ = .error "is not in the subpath" ∧
     source_files_cached
        ⟨⟨⟨["a", "b.py"]⟩, ⟨["docs"]⟩, ".venv", Mode.cls, false, 10⟩, none⟩
        ⟨SourceKind.isFile, false, [], fun _ => .ok [], fun _ _ => .ok ""⟩ =
      .ok ([⟨["a", "b.py"]⟩],
        ⟨⟨⟨["a", "b.py"]⟩, ⟨["docs"]⟩, ".venv", Mode.cls, false, 10⟩,
          some [⟨["a", "b.py"]⟩]⟩, []) ∧
     gen_docs
        ⟨⟨⟨["a", "b.py"]⟩, ⟨["docs"]⟩, ".venv", Mode.cls, false, 10⟩, none⟩
        ⟨SourceKind.isFile, false, [], fun _ => .ok [], fun _ _ => .ok ""⟩ =
      some (.ok ((1, 0),
        ⟨⟨⟨["a", "b.py"]⟩, ⟨["docs"]⟩, ".venv", Mode.cls, false, 10⟩,
          some [⟨["a", "b.py"]⟩]⟩, []))) :=
  ⟨rfl, rfl, by decide, by decide,
   c10_single_file_in_subdir_fails
     ⟨⟨⟨["a", "b.py"]⟩, ⟨["docs"]⟩, ".venv", Mode.cls, false, 10⟩, none⟩
     ⟨SourceKind.isFile, false, [], fun _ => .ok [], fun _ _ => .ok ""⟩
     rfl rfl (by decide) (by decide)⟩

end GenDocs
